import Mathlib

/-!
Verification of the EM-Wave-Propagation FDTD solver against its
natural-language specification.

The development shallowly embeds the repository's code:

* `grid` — the grid indexer and bounds checks from `src/include/grid.h`
  and the 3D variants from the unnamed grid header.
* `em` — the normalized simulation constants from `src/include/em_common.h`.
* `SimParams` / `SimParams3D` — the parameter blocks from
  `src/include/em_common.h`, built per step by `Engine::uploadSimParams`.
* The simulation driver loop from `main` in `src/2D_wave.cpp` and
  `src/3D_wave.cpp`.
* The GPU command stream issued by `Engine::updateFields` (two compute
  dispatches separated by memory barriers), with a semantics in which a
  dispatch may only launch once all prior writes are visible.
* The per-cell FDTD update passes.  The compute shaders
  `shaders/maxwell.comp` / `shaders/maxwell3d.comp` are not part of the
  available sources, so the pass bodies are modelled from the spec
  (sections 4.2 and 5); definitions carrying such modelling say so in
  their doc comments.
* `sampleField` and the linear indexer from `src/shaders/slice3d.frag`.

Machine integers are embedded as `Int` (the C++ code only ever uses them
within grid ranges, where `int` arithmetic agrees with the integers) and
IEEE single-precision values as `Real`.

The file is organised as definitions first, then the theorems.
-/

namespace grid

/-- From `src/include/grid.h`: `idx2d(x, y, nx) = y * nx + x`. -/
def idx2d (x y nx : ℤ) : ℤ := y * nx + x

/-- From `src/include/grid.h`:
`inBounds(x, y, nx, ny) = x >= 0 && x < nx && y >= 0 && y < ny`. -/
def inBounds (x y nx ny : ℤ) : Bool :=
  decide (0 ≤ x) && decide (x < nx) && decide (0 ≤ y) && decide (y < ny)

/-- From the unnamed grid header (src/unnamed/part_001):
`idx3d(x, y, z, nx, ny) = z * nx * ny + y * nx + x`. -/
def idx3d (x y z nx ny : ℤ) : ℤ := z * nx * ny + y * nx + x

/-- From the unnamed grid header (src/unnamed/part_001):
`inBounds3D(x, y, z, nx, ny, nz)`. -/
def inBounds3D (x y z nx ny nz : ℤ) : Bool :=
  decide (0 ≤ x) && decide (x < nx) && decide (0 ≤ y) && decide (y < ny) &&
    decide (0 ≤ z) && decide (z < nz)

/-- The 2D indexing formula exactly as the spec states it (section 4.1). -/
def index2d_spec (x y nx : ℤ) : ℤ := y * nx + x

/-- The 3D indexing formula exactly as the spec states it (section 4.1). -/
def index3d_spec (x y z nx ny : ℤ) : ℤ := z * nx * ny + y * nx + x

end grid

namespace em

/-- From `src/include/em_common.h`: normalized speed of light. -/
def C : ℝ := 1

/-- From `src/include/em_common.h`: normalized spatial step. -/
def DX : ℝ := 1

/-- From `src/include/em_common.h`: 2D time step (Courant factor 0.5). -/
def DT : ℝ := 0.5

/-- From `src/include/em_common.h`: vacuum permittivity (normalized). -/
def EPS0 : ℝ := 1

/-- From `src/include/em_common.h`: vacuum permeability (normalized). -/
def MU0 : ℝ := 1

/-- From `src/include/em_common.h`: 3D time step. -/
def DT_3D : ℝ := 0.5

end em

/-- From `src/include/em_common.h`: the 2D per-step parameter block
(`struct SimParams`), an immutable snapshot rebuilt every timestep. -/
structure SimParams where
  nx : ℤ
  ny : ℤ
  source_x : ℤ
  source_y : ℤ
  dx : ℝ
  dt : ℝ
  time : ℝ
  source_freq : ℝ
  source_amp : ℝ
  field_scale : ℝ
  timestep : ℤ

/-- From `src/include/em_common.h`: the 3D per-step parameter block
(`struct SimParams3D`). -/
structure SimParams3D where
  nx : ℤ
  ny : ℤ
  nz : ℤ
  source_x : ℤ
  source_y : ℤ
  source_z : ℤ
  dx : ℝ
  dt : ℝ
  time : ℝ
  source_freq : ℝ
  source_amp : ℝ
  field_scale : ℝ
  timestep : ℤ
  render_component : ℤ
  slice_axis : ℤ
  slice_index : ℤ

/-- From `src/2D_wave.cpp`: the grid extent `NX = 512`. -/
def NX2D : ℤ := 512

/-- From `src/2D_wave.cpp`: the grid extent `NY = 512`. -/
def NY2D : ℤ := 512

/-- From `src/2D_wave.cpp`: `STEPS_PER_FRAME = 4`. -/
def STEPS_PER_FRAME_2D : ℕ := 4

/-- From `src/2D_wave.cpp`: `SOURCE_FREQ = 0.04`. -/
def SOURCE_FREQ_2D : ℝ := 0.04

/-- From `src/3D_wave.cpp`: the grid extents `NX = NY = NZ = 128`. -/
def N3D : ℤ := 128

/-- From `src/3D_wave.cpp`: `STEPS_PER_FRAME = 1`. -/
def STEPS_PER_FRAME_3D : ℕ := 1

/-- From `src/3D_wave.cpp`: `SOURCE_FREQ = 0.06`. -/
def SOURCE_FREQ_3D : ℝ := 0.06

/-- From `Engine::uploadSimParams` in `src/2D_wave.cpp`: the parameter
block built for a given timestep (`time = timestep * em::DT`,
`source` at the grid center). -/
def uploadSimParams2D (timestep : ℕ) : SimParams where
  nx := NX2D
  ny := NY2D
  source_x := NX2D / 2
  source_y := NY2D / 2
  dx := em.DX
  dt := em.DT
  time := (timestep : ℝ) * em.DT
  source_freq := SOURCE_FREQ_2D
  source_amp := 1
  field_scale := 1
  timestep := (timestep : ℤ)

/-- From `Engine::uploadSimParams` in `src/3D_wave.cpp`. -/
def uploadSimParams3D (timestep : ℕ) (renderComponent sliceAxis sliceIndex : ℤ) :
    SimParams3D where
  nx := N3D
  ny := N3D
  nz := N3D
  source_x := N3D / 2
  source_y := N3D / 2
  source_z := N3D / 2
  dx := em.DX
  dt := em.DT_3D
  time := (timestep : ℝ) * em.DT_3D
  source_freq := SOURCE_FREQ_3D
  source_amp := 1
  field_scale := 1
  timestep := (timestep : ℤ)
  render_component := renderComponent
  slice_axis := sliceAxis
  slice_index := sliceIndex

/-- From `main` in `src/2D_wave.cpp` / `src/3D_wave.cpp`: the per-frame
inner loop `for (i = 0; i < STEPS_PER_FRAME; ++i) { updateFields(timestep);
++timestep; }`.  Returns the list of timestep values passed to
`updateFields` and the final counter. -/
def frameLoop : ℕ → ℕ → List ℕ × ℕ
  | 0, t => ([], t)
  | k + 1, t =>
      let rest := frameLoop k (t + 1)
      (t :: rest.1, rest.2)

/-- From `main`: the driver runs frames back to back; the counter is
carried from one frame to the next and is never reset, skipped or
reordered.  `driverLoop spf n t` is the invocation trace and final
counter after `n` frames starting from counter value `t`. -/
def driverLoop (spf : ℕ) : ℕ → ℕ → List ℕ × ℕ
  | 0, t => ([], t)
  | n + 1, t =>
      let fr := frameLoop spf t
      let rest := driverLoop spf n fr.2
      (fr.1 ++ rest.1, rest.2)

/-- From `main` in `src/2D_wave.cpp`: `int timestep = 0;` then the frame
loop with `STEPS_PER_FRAME = 4`. -/
def driver2D (frames : ℕ) : List ℕ × ℕ := driverLoop STEPS_PER_FRAME_2D frames 0

/-- From `main` in `src/3D_wave.cpp`: `int timestep = 0;` then the frame
loop with `STEPS_PER_FRAME = 1`. -/
def driver3D (frames : ℕ) : List ℕ × ℕ := driverLoop STEPS_PER_FRAME_3D frames 0

/-- The 2D simulation configuration consumed from the host (spec
section 6): grid extent, spatial and time step, wave speed, source cell.
In `src/2D_wave.cpp` these are the compile-time constants `NX`, `NY`,
`em::DX`, `em::DT`, `em::C` and `NX/2, NY/2`. -/
structure Config2D where
  nx : ℤ
  ny : ℤ
  dx : ℝ
  dt : ℝ
  c : ℝ
  source_x : ℤ
  source_y : ℤ

/-- The 3D simulation configuration (from `src/3D_wave.cpp`). -/
structure Config3D where
  nx : ℤ
  ny : ℤ
  nz : ℤ
  dx : ℝ
  dt : ℝ
  c : ℝ
  source_x : ℤ
  source_y : ℤ
  source_z : ℤ

/-- Validity of a 2D configuration per spec section 7: the Courant
condition `dt <= dx / (c * sqrt 2)`, positive grid extents, and an
in-bounds source cell. -/
def validConfig2D (cfg : Config2D) : Prop :=
  cfg.dt ≤ cfg.dx / (cfg.c * Real.sqrt 2) ∧ 0 < cfg.nx ∧ 0 < cfg.ny ∧
    grid.inBounds cfg.source_x cfg.source_y cfg.nx cfg.ny = true

/-- Validity of a 3D configuration per spec section 7 (with `D = 3`). -/
def validConfig3D (cfg : Config3D) : Prop :=
  cfg.dt ≤ cfg.dx / (cfg.c * Real.sqrt 3) ∧ 0 < cfg.nx ∧ 0 < cfg.ny ∧
    0 < cfg.nz ∧
    grid.inBounds3D cfg.source_x cfg.source_y cfg.source_z cfg.nx cfg.ny cfg.nz
      = true

/-- The hard-coded 2D configuration of `src/2D_wave.cpp`. -/
def config2D : Config2D where
  nx := NX2D
  ny := NY2D
  dx := em.DX
  dt := em.DT
  c := em.C
  source_x := NX2D / 2
  source_y := NY2D / 2

/-- The hard-coded 3D configuration of `src/3D_wave.cpp`. -/
def config3D : Config3D where
  nx := N3D
  ny := N3D
  nz := N3D
  dx := em.DX
  dt := em.DT_3D
  c := em.C
  source_x := N3D / 2
  source_y := N3D / 2
  source_z := N3D / 2

/-- Outcomes of the environment-dependent startup steps that `main` /
`Engine::init` perform before the simulation loop: GLFW initialisation,
window creation, GLEW initialisation, shader compilation/linking.  Each
failure is fatal (`exit(EXIT_FAILURE)`). -/
structure StartupEnv where
  glfwOk : Bool
  windowOk : Bool
  glewOk : Bool
  shadersOk : Bool

/-- From `Engine::initWindow` / `Engine::initShaders` / `shader_utils.h`:
startup survives exactly when every environment step succeeds. -/
def startupSucceeds (env : StartupEnv) : Bool :=
  env.glfwOk && env.windowOk && env.glewOk && env.shadersOk

/-- From `main` in `src/2D_wave.cpp`: whether control reaches the first
`updateFields` invocation.  The pre-loop code aborts only on the
environment failures above; no statement before the loop inspects the
simulation configuration (`NX`, `NY`, `em::DT`, `em::DX`, source cell),
so the configuration argument is never consulted. -/
def solverStarts2D (env : StartupEnv) (cfg : Config2D) : Bool :=
  if !env.glfwOk then false
  else if !env.windowOk then false
  else if !env.glewOk then false
  else if !env.shadersOk then false
  else true

/-- From `main` in `src/3D_wave.cpp`: identical pre-loop structure. -/
def solverStarts3D (env : StartupEnv) (cfg : Config3D) : Bool :=
  if !env.glfwOk then false
  else if !env.windowOk then false
  else if !env.glewOk then false
  else if !env.shadersOk then false
  else true

/-- An environment in which every startup step succeeds. -/
def allOkEnv : StartupEnv where
  glfwOk := true
  windowOk := true
  glewOk := true
  shadersOk := true

/-- A configuration with a non-positive grid extent (invalid per spec
section 7). -/
def badConfig2D : Config2D where
  nx := 0
  ny := 512
  dx := 1
  dt := 0.5
  c := 1
  source_x := 0
  source_y := 0

/- ────────────────  2D FDTD update stage (modelled)  ──────────────── -/

/-- The 2D TM field store: one scalar array per component (`Ez`, `Hx`,
`Hy`), here represented as real-valued functions of the integer cell
coordinates.  `Engine::initBuffers` in `src/2D_wave.cpp` allocates the
three arrays zero-filled. -/
@[ext]
structure Fields2D where
  ez : ℤ → ℤ → ℝ
  hx : ℤ → ℤ → ℝ
  hy : ℤ → ℤ → ℝ

/-- The cold-start state: all fields zero (`Engine::initBuffers`). -/
def zeroFields2D : Fields2D where
  ez := fun _ _ => 0
  hx := fun _ _ => 0
  hy := fun _ _ => 0

/-- Modelled from the spec: the compute shader `shaders/maxwell.comp` is
not among the available sources.  Forward difference of `Ez` along `y`,
with the reduced stencil of spec section 4.2 — a difference whose outer
sample would lie outside the grid is taken as 0, so no fetch leaves the
array. -/
def dEz_y (p : SimParams) (f : Fields2D) (x y : ℤ) : ℝ :=
  if y + 1 < p.ny then f.ez x (y + 1) - f.ez x y else 0

/-- Modelled from the spec: forward difference of `Ez` along `x`, reduced
stencil at the boundary. -/
def dEz_x (p : SimParams) (f : Fields2D) (x y : ℤ) : ℝ :=
  if x + 1 < p.nx then f.ez (x + 1) y - f.ez x y else 0

/-- Modelled from the spec: backward difference of `Hy` along `x`,
reduced stencil at the boundary. -/
def dHy_x (p : SimParams) (f : Fields2D) (x y : ℤ) : ℝ :=
  if 0 < x then f.hy x y - f.hy (x - 1) y else 0

/-- Modelled from the spec: backward difference of `Hx` along `y`,
reduced stencil at the boundary. -/
def dHx_y (p : SimParams) (f : Fields2D) (x y : ℤ) : ℝ :=
  if 0 < y then f.hx x y - f.hx x (y - 1) else 0

/-- Modelled from the spec (section 4.2, Pass 1): the new `Hx` value of a
cell, `H_i[cell] -= (dt / (mu0 * dx)) * (difference of neighboring E-type
components across the perpendicular axes)`, reading only the pass-initial
snapshot `f`. -/
noncomputable def hValHx (p : SimParams) (f : Fields2D) (c : ℤ × ℤ) : ℝ :=
  f.hx c.1 c.2 - p.dt / (em.MU0 * p.dx) * dEz_y p f c.1 c.2

/-- Modelled from the spec (section 4.2, Pass 1): the new `Hy` value. -/
noncomputable def hValHy (p : SimParams) (f : Fields2D) (c : ℤ × ℤ) : ℝ :=
  f.hy c.1 c.2 - p.dt / (em.MU0 * p.dx) * dEz_x p f c.1 c.2

/-- Whether a cell lies on one of the grid's outer faces. -/
def onBoundary2D (p : SimParams) (x y : ℤ) : Bool :=
  decide (x = 0) || decide (x = p.nx - 1) || decide (y = 0) ||
    decide (y = p.ny - 1)

/-- The cell one step inward from a boundary cell (x-faces first). -/
def inward2D (p : SimParams) (x y : ℤ) : ℤ × ℤ :=
  if x = 0 then (1, y)
  else if x = p.nx - 1 then (p.nx - 2, y)
  else if y = 0 then (x, 1)
  else (x, p.ny - 2)

/-- Modelled from the spec (section 4.2): the Mur coefficient
`(c*dt - dx) / (c*dt + dx)`. -/
noncomputable def murCoef (dt dx : ℝ) : ℝ := (em.C * dt - dx) / (em.C * dt + dx)

/-- Modelled from the spec (section 4.2, Pass 2): the soft source term,
`source_amp * sin(2*pi*source_freq*time)` added at the source cell. -/
noncomputable def sourceTerm (p : SimParams) (x y : ℤ) : ℝ :=
  if x = p.source_x ∧ y = p.source_y then
    p.source_amp * Real.sin (2 * Real.pi * p.source_freq * p.time)
  else 0

/-- Modelled from the spec (section 4.2, Pass 2): the new `Ez` value of a
cell.  Interior: `E_i[cell] += (dt / (eps0 * dx)) * (difference of
neighboring H-type components across perpendicular axes)` plus the soft
source.  Boundary: the first-order Mur absorbing condition — a linear
combination of the cell's own previous value and the value one cell
inward with the Mur coefficient.  Per spec section 5 each new value reads
only the pass-initial snapshot `f`. -/
noncomputable def eValEz (p : SimParams) (f : Fields2D) (c : ℤ × ℤ) : ℝ :=
  if onBoundary2D p c.1 c.2 then
    let i := inward2D p c.1 c.2
    f.ez i.1 i.2 + murCoef p.dt p.dx * (f.ez i.1 i.2 - f.ez c.1 c.2)
  else
    f.ez c.1 c.2 + p.dt / (em.EPS0 * p.dx) * (dHy_x p f c.1 c.2 - dHx_y p f c.1 c.2)
      + sourceTerm p c.1 c.2

/-- Modelled from the spec (section 4.2, Pass 1): the magnetic pass —
every in-bounds cell's H components receive their new values, each
computed from the pass-initial state. -/
noncomputable def hPass2D (p : SimParams) (f : Fields2D) : Fields2D where
  ez := f.ez
  hx := fun x y => if grid.inBounds x y p.nx p.ny then hValHx p f (x, y) else f.hx x y
  hy := fun x y => if grid.inBounds x y p.nx p.ny then hValHy p f (x, y) else f.hy x y

/-- Modelled from the spec (section 4.2, Pass 2): the electric pass with
source and absorbing boundary. -/
noncomputable def ePass2D (p : SimParams) (f : Fields2D) : Fields2D where
  ez := fun x y => if grid.inBounds x y p.nx p.ny then eValEz p f (x, y) else f.ez x y
  hx := f.hx
  hy := f.hy

/-- One full FDTD timestep (spec section 4.2): Pass 1 over the whole grid,
then Pass 2 over the whole grid reading Pass 1's output. -/
noncomputable def step2D (p : SimParams) (f : Fields2D) : Fields2D := ePass2D p (hPass2D p f)

/-- A 2D run scenario: the per-run constants from which the driver
rebuilds the parameter block each step (spec sections 3 and 6). -/
structure Scenario2D where
  nx : ℤ
  ny : ℤ
  source_x : ℤ
  source_y : ℤ
  dx : ℝ
  dt : ℝ
  source_freq : ℝ
  source_amp : ℝ

/-- The parameter block the driver builds for timestep `t` of a scenario
(`Engine::uploadSimParams` pattern: `time = timestep * dt`). -/
def mkParams (s : Scenario2D) (t : ℕ) : SimParams where
  nx := s.nx
  ny := s.ny
  source_x := s.source_x
  source_y := s.source_y
  dx := s.dx
  dt := s.dt
  time := (t : ℝ) * s.dt
  source_freq := s.source_freq
  source_amp := s.source_amp
  field_scale := 1
  timestep := (t : ℤ)

/-- `run2D s n f`: the field state after the driver has invoked the
update stage `n` times starting from state `f`, with timesteps
`0, 1, ..., n-1` in order. -/
noncomputable def run2D (s : Scenario2D) : ℕ → Fields2D → Fields2D
  | 0, f => f
  | n + 1, f => step2D (mkParams s n) (run2D s n f)

/-- The concrete scenario of spec section 8: 2D grid `nx = ny = 64`,
`dx = 1`, `dt = 0.5`, point source at `(32, 32)`, `source_freq = 0.04`,
`source_amp = 1`. -/
def scenario64 : Scenario2D where
  nx := 64
  ny := 64
  source_x := 32
  source_y := 32
  dx := 1
  dt := 0.5
  source_freq := 0.04
  source_amp := 1

/- ────────────────  3D FDTD update stage (modelled)  ──────────────── -/

/-- The 3D field store: six scalar arrays (`Ex, Ey, Ez, Hx, Hy, Hz`),
allocated zero-filled by `Engine::initBuffers` in `src/3D_wave.cpp`. -/
@[ext]
structure Fields3D where
  ex : ℤ → ℤ → ℤ → ℝ
  ey : ℤ → ℤ → ℤ → ℝ
  ez : ℤ → ℤ → ℤ → ℝ
  hx : ℤ → ℤ → ℤ → ℝ
  hy : ℤ → ℤ → ℤ → ℝ
  hz : ℤ → ℤ → ℤ → ℝ

/-- The 3D cold-start state: all six components zero. -/
def zeroFields3D : Fields3D where
  ex := fun _ _ _ => 0
  ey := fun _ _ _ => 0
  ez := fun _ _ _ => 0
  hx := fun _ _ _ => 0
  hy := fun _ _ _ => 0
  hz := fun _ _ _ => 0

/-- Modelled from the spec: forward difference along `y` with reduced
stencil (the shader `shaders/maxwell3d.comp` is not among the sources). -/
def fwdY (ny : ℤ) (g : ℤ → ℤ → ℤ → ℝ) (x y z : ℤ) : ℝ :=
  if y + 1 < ny then g x (y + 1) z - g x y z else 0

/-- Modelled from the spec: forward difference along `x`, reduced stencil. -/
def fwdX (nx : ℤ) (g : ℤ → ℤ → ℤ → ℝ) (x y z : ℤ) : ℝ :=
  if x + 1 < nx then g (x + 1) y z - g x y z else 0

/-- Modelled from the spec: forward difference along `z`, reduced stencil. -/
def fwdZ (nz : ℤ) (g : ℤ → ℤ → ℤ → ℝ) (x y z : ℤ) : ℝ :=
  if z + 1 < nz then g x y (z + 1) - g x y z else 0

/-- Modelled from the spec: backward difference along `x`, reduced stencil. -/
def bwdX (g : ℤ → ℤ → ℤ → ℝ) (x y z : ℤ) : ℝ :=
  if 0 < x then g x y z - g (x - 1) y z else 0

/-- Modelled from the spec: backward difference along `y`, reduced stencil. -/
def bwdY (g : ℤ → ℤ → ℤ → ℝ) (x y z : ℤ) : ℝ :=
  if 0 < y then g x y z - g x (y - 1) z else 0

/-- Modelled from the spec: backward difference along `z`, reduced stencil. -/
def bwdZ (g : ℤ → ℤ → ℤ → ℝ) (x y z : ℤ) : ℝ :=
  if 0 < z then g x y z - g x y (z - 1) else 0

/-- Modelled from the spec (section 4.2, Pass 1): new `Hx` value — the
discrete curl of the E components across the two axes transverse to `x`,
read from the pass-initial snapshot `f`. -/
noncomputable def hVal3Hx (p : SimParams3D) (f : Fields3D) (x y z : ℤ) : ℝ :=
  f.hx x y z - p.dt / (em.MU0 * p.dx) * (fwdY p.ny f.ez x y z - fwdZ p.nz f.ey x y z)

/-- Modelled from the spec (section 4.2, Pass 1): new `Hy` value. -/
noncomputable def hVal3Hy (p : SimParams3D) (f : Fields3D) (x y z : ℤ) : ℝ :=
  f.hy x y z - p.dt / (em.MU0 * p.dx) * (fwdZ p.nz f.ex x y z - fwdX p.nx f.ez x y z)

/-- Modelled from the spec (section 4.2, Pass 1): new `Hz` value. -/
noncomputable def hVal3Hz (p : SimParams3D) (f : Fields3D) (x y z : ℤ) : ℝ :=
  f.hz x y z - p.dt / (em.MU0 * p.dx) * (fwdX p.nx f.ey x y z - fwdY p.ny f.ex x y z)

/-- Whether a 3D cell lies on one of the grid's outer faces. -/
def onBoundary3D (p : SimParams3D) (x y z : ℤ) : Bool :=
  decide (x = 0) || decide (x = p.nx - 1) || decide (y = 0) ||
    decide (y = p.ny - 1) || decide (z = 0) || decide (z = p.nz - 1)

/-- The cell one step inward from a 3D boundary cell (x-faces first,
then y-faces, then z-faces). -/
def inward3D (p : SimParams3D) (x y z : ℤ) : ℤ × ℤ × ℤ :=
  if x = 0 then (1, y, z)
  else if x = p.nx - 1 then (p.nx - 2, y, z)
  else if y = 0 then (x, 1, z)
  else if y = p.ny - 1 then (x, p.ny - 2, z)
  else if z = 0 then (x, y, 1)
  else (x, y, p.nz - 2)

/-- Modelled from the spec (section 4.2, Pass 2): the 3D soft source
term, added to the `Ez` component at the source cell (`Ez` is the
solver's default component, matching `renderComponent = 2`). -/
noncomputable def sourceTerm3 (p : SimParams3D) (x y z : ℤ) : ℝ :=
  if x = p.source_x ∧ y = p.source_y ∧ z = p.source_z then
    p.source_amp * Real.sin (2 * Real.pi * p.source_freq * p.time)
  else 0

/-- Modelled from the spec (section 4.2, Pass 2): new `Ex` value —
interior cells take the discrete curl of the just-updated H components;
boundary cells take the first-order Mur combination of the previous value
and the value one cell inward. -/
noncomputable def eVal3Ex (p : SimParams3D) (f : Fields3D) (x y z : ℤ) : ℝ :=
  if onBoundary3D p x y z then
    let i := inward3D p x y z
    f.ex i.1 i.2.1 i.2.2 + murCoef p.dt p.dx * (f.ex i.1 i.2.1 i.2.2 - f.ex x y z)
  else
    f.ex x y z + p.dt / (em.EPS0 * p.dx) * (bwdY f.hz x y z - bwdZ f.hy x y z)

/-- Modelled from the spec (section 4.2, Pass 2): new `Ey` value. -/
noncomputable def eVal3Ey (p : SimParams3D) (f : Fields3D) (x y z : ℤ) : ℝ :=
  if onBoundary3D p x y z then
    let i := inward3D p x y z
    f.ey i.1 i.2.1 i.2.2 + murCoef p.dt p.dx * (f.ey i.1 i.2.1 i.2.2 - f.ey x y z)
  else
    f.ey x y z + p.dt / (em.EPS0 * p.dx) * (bwdZ f.hx x y z - bwdX f.hz x y z)

/-- Modelled from the spec (section 4.2, Pass 2): new `Ez` value,
including the soft source at the source cell. -/
noncomputable def eVal3Ez (p : SimParams3D) (f : Fields3D) (x y z : ℤ) : ℝ :=
  if onBoundary3D p x y z then
    let i := inward3D p x y z
    f.ez i.1 i.2.1 i.2.2 + murCoef p.dt p.dx * (f.ez i.1 i.2.1 i.2.2 - f.ez x y z)
  else
    f.ez x y z + p.dt / (em.EPS0 * p.dx) * (bwdX f.hy x y z - bwdY f.hx x y z)
      + sourceTerm3 p x y z

/-- Modelled from the spec (section 4.2, Pass 1): the 3D magnetic pass. -/
noncomputable def hPass3D (p : SimParams3D) (f : Fields3D) : Fields3D where
  ex := f.ex
  ey := f.ey
  ez := f.ez
  hx := fun x y z =>
    if grid.inBounds3D x y z p.nx p.ny p.nz then hVal3Hx p f x y z else f.hx x y z
  hy := fun x y z =>
    if grid.inBounds3D x y z p.nx p.ny p.nz then hVal3Hy p f x y z else f.hy x y z
  hz := fun x y z =>
    if grid.inBounds3D x y z p.nx p.ny p.nz then hVal3Hz p f x y z else f.hz x y z

/-- Modelled from the spec (section 4.2, Pass 2): the 3D electric pass
with source and absorbing boundary. -/
noncomputable def ePass3D (p : SimParams3D) (f : Fields3D) : Fields3D where
  ex := fun x y z =>
    if grid.inBounds3D x y z p.nx p.ny p.nz then eVal3Ex p f x y z else f.ex x y z
  ey := fun x y z =>
    if grid.inBounds3D x y z p.nx p.ny p.nz then eVal3Ey p f x y z else f.ey x y z
  ez := fun x y z =>
    if grid.inBounds3D x y z p.nx p.ny p.nz then eVal3Ez p f x y z else f.ez x y z
  hx := f.hx
  hy := f.hy
  hz := f.hz

/-- One full 3D FDTD timestep: Pass 1, then Pass 2 on Pass 1's output. -/
noncomputable def step3D (p : SimParams3D) (f : Fields3D) : Fields3D :=
  ePass3D p (hPass3D p f)

/-- A 3D run scenario (spec sections 3 and 6). -/
structure Scenario3D where
  nx : ℤ
  ny : ℤ
  nz : ℤ
  source_x : ℤ
  source_y : ℤ
  source_z : ℤ
  dx : ℝ
  dt : ℝ
  source_freq : ℝ
  source_amp : ℝ

/-- The 3D parameter block the driver builds for timestep `t`
(`Engine::uploadSimParams` pattern: `time = timestep * dt`). -/
noncomputable def mkParams3 (s : Scenario3D) (t : ℕ) : SimParams3D where
  nx := s.nx
  ny := s.ny
  nz := s.nz
  source_x := s.source_x
  source_y := s.source_y
  source_z := s.source_z
  dx := s.dx
  dt := s.dt
  time := (t : ℝ) * s.dt
  source_freq := s.source_freq
  source_amp := s.source_amp
  field_scale := 1
  timestep := (t : ℤ)
  render_component := 2
  slice_axis := 0
  slice_index := s.nz / 2

/-- `run3D s n f`: the 3D field state after `n` update-stage invocations
with timesteps `0, 1, ..., n-1`. -/
noncomputable def run3D (s : Scenario3D) : ℕ → Fields3D → Fields3D
  | 0, f => f
  | n + 1, f => step3D (mkParams3 s n) (run3D s n f)

/- ─────────────  GPU command stream of updateFields  ───────────── -/

/-- A command in the stream `Engine::updateFields` issues to the GPU:
a compute dispatch (running a whole-grid pass) or a memory barrier
(`glMemoryBarrier(GL_SHADER_STORAGE_BARRIER_BIT)`). -/
inductive GpuCmd (σ : Type) where
  | dispatch (pass : σ → σ)
  | barrier

/-- Execution of a command stream.  A dispatch may only launch when all
previous writes are visible (`pending = false`); launching a dispatch
while writes are still pending would let it read a partial or
previous-step mix, which this semantics rejects as `none`.  A barrier
makes all pending writes visible. -/
def execFrom {σ : Type} : List (GpuCmd σ) → σ → Bool → Option σ
  | [], s, _ => some s
  | GpuCmd.dispatch f :: rest, s, pending =>
      if pending then none else execFrom rest (f s) true
  | GpuCmd.barrier :: rest, s, _ => execFrom rest s false

/-- Execute a command stream from a quiescent state. -/
def execCmds {σ : Type} (cmds : List (GpuCmd σ)) (s : σ) : Option σ :=
  execFrom cmds s false

/-- From `Engine::updateFields` in `src/2D_wave.cpp` (lines 199–215):
set `updateStep = 0` and dispatch (Pass 1, H update), barrier, set
`updateStep = 1` and dispatch (Pass 2, E update + source + boundary),
barrier. -/
noncomputable def updateFields2DCmds (p : SimParams) : List (GpuCmd Fields2D) :=
  [GpuCmd.dispatch (hPass2D p), GpuCmd.barrier,
   GpuCmd.dispatch (ePass2D p), GpuCmd.barrier]

/-- From `Engine::updateFields` in `src/3D_wave.cpp` (lines 214–231):
the same two-dispatch, two-barrier stream. -/
noncomputable def updateFields3DCmds (p : SimParams3D) : List (GpuCmd Fields3D) :=
  [GpuCmd.dispatch (hPass3D p), GpuCmd.barrier,
   GpuCmd.dispatch (ePass3D p), GpuCmd.barrier]

/- ─────────────  parallel fan-out of a pass (spec section 5)  ───────────── -/

/-- Pointwise write of one cell of a 2D scalar array. -/
def upd2 (g : ℤ → ℤ → ℝ) (c : ℤ × ℤ) (v : ℝ) : ℤ → ℤ → ℝ :=
  fun x y => if x = c.1 ∧ y = c.2 then v else g x y

/-- One Pass-1 worker: writes its own cell's new H values, computed from
the pass-initial snapshot `f0` only (spec section 5). -/
noncomputable def hWorker (p : SimParams) (f0 : Fields2D) (s : Fields2D)
    (c : ℤ × ℤ) : Fields2D where
  ez := s.ez
  hx := upd2 s.hx c (hValHx p f0 c)
  hy := upd2 s.hy c (hValHy p f0 c)

/-- Pass 1 executed as a fan-out over the worker order `order`. -/
noncomputable def hPassSched (p : SimParams) (order : List (ℤ × ℤ))
    (f : Fields2D) : Fields2D :=
  order.foldl (hWorker p f) f

/-- One Pass-2 worker: writes its own cell's new `Ez` value from the
pass-initial snapshot `f0`. -/
noncomputable def eWorker (p : SimParams) (f0 : Fields2D) (s : Fields2D)
    (c : ℤ × ℤ) : Fields2D where
  ez := upd2 s.ez c (eValEz p f0 c)
  hx := s.hx
  hy := s.hy

/-- Pass 2 executed as a fan-out over the worker order `order`. -/
noncomputable def ePassSched (p : SimParams) (order : List (ℤ × ℤ))
    (f : Fields2D) : Fields2D :=
  order.foldl (eWorker p f) f

/-- One full timestep with explicit worker orders for the two passes. -/
noncomputable def stepSched (p : SimParams) (oh oe : List (ℤ × ℤ))
    (f : Fields2D) : Fields2D :=
  ePassSched p oe (hPassSched p oh f)

/-- The canonical enumeration of the grid's cells (the dispatch domain:
every in-bounds cell exactly once). -/
def cellList (nx ny : ℤ) : List (ℤ × ℤ) :=
  (List.range ny.toNat).flatMap fun y =>
    (List.range nx.toNat).map fun x => ((x : ℤ), (y : ℤ))

/-- `runSched s sched n f`: `n` update steps where step `k` fans Pass 1
out in order `(sched k).1` and Pass 2 in order `(sched k).2`. -/
noncomputable def runSched (s : Scenario2D)
    (sched : ℕ → List (ℤ × ℤ) × List (ℤ × ℤ)) : ℕ → Fields2D → Fields2D
  | 0, f => f
  | n + 1, f =>
      stepSched (mkParams s n) (sched n).1 (sched n).2 (runSched s sched n f)

/- ─────────────  read-side field sampling (slice3d.frag)  ───────────── -/

/-- From `src/shaders/slice3d.frag`: `idx(x,y,z) = z*nx*ny + y*nx + x`. -/
def idxFrag (nx ny x y z : ℤ) : ℤ := z * nx * ny + y * nx + x

/-- From `sampleField` in `src/shaders/slice3d.frag`: selects the scalar
exposed for a cell — one of the six components, or for `comp = 3` the
derived magnitude `sqrt(Ex*Ex + Ey*Ey + Ez*Ez)`. -/
noncomputable def sampleField (Ex Ey Ez Hx Hy Hz : ℤ → ℝ) (nx ny x y z comp : ℤ) : ℝ :=
  let i := idxFrag nx ny x y z
  if comp = 0 then Ex i
  else if comp = 1 then Ey i
  else if comp = 2 then Ez i
  else if comp = 3 then Real.sqrt (Ex i * Ex i + Ey i * Ey i + Ez i * Ez i)
  else if comp = 4 then Hx i
  else if comp = 5 then Hy i
  else Hz i

/- ──────────────────────────  theorems  ────────────────────────── -/

/-- C1: one invocation of the update stage issues the H-pass dispatch
strictly before the E-pass dispatch with a full memory barrier between
them, and under the hazard-rejecting stream semantics (a dispatch may
not launch while writes are pending) the stream executes successfully
to exactly the sequential composition — every E-field update of the
timestep reads the fully-updated H state of that same timestep, never a
partial or previous-step mix.  Holds for both the 2D and the 3D engine. -/
theorem C1_h_before_e_with_barrier (p : SimParams) (q : SimParams3D)
    (s : Fields2D) (u : Fields3D) :
    execCmds (updateFields2DCmds p) s = some (ePass2D p (hPass2D p s)) ∧
    execCmds (updateFields2DCmds p) s = some (step2D p s) ∧
    execCmds (updateFields3DCmds q) u = some (ePass3D q (hPass3D q u)) ∧
    execCmds (updateFields3DCmds q) u = some (step3D q u) ∧
    (updateFields2DCmds p)[0]? = some (GpuCmd.dispatch (hPass2D p)) ∧
    (updateFields2DCmds p)[1]? = some GpuCmd.barrier ∧
    (updateFields2DCmds p)[2]? = some (GpuCmd.dispatch (ePass2D p)) ∧
    (updateFields3DCmds q)[0]? = some (GpuCmd.dispatch (hPass3D q)) ∧
    (updateFields3DCmds q)[1]? = some GpuCmd.barrier ∧
    (updateFields3DCmds q)[2]? = some (GpuCmd.dispatch (ePass3D q)) :=
  ⟨rfl, rfl, rfl, rfl, rfl, rfl, rfl, rfl, rfl, rfl⟩

/-- C8: the read-side selection exposes, for `render_component = 3`, the
derived magnitude `sqrt(Ex² + Ey² + Ez²)` of the cell addressed by the
indexing rule `z*nx*ny + y*nx + x`, and for the selections
`0, 1, 2, 4, 5, 6` the corresponding single scalar component unchanged. -/
theorem C8_sample_field_selection (Ex Ey Ez Hx Hy Hz : ℤ → ℝ) (nx ny x y z : ℤ) :
    idxFrag nx ny x y z = grid.idx3d x y z nx ny ∧
    sampleField Ex Ey Ez Hx Hy Hz nx ny x y z 3 =
      Real.sqrt (Ex (z * nx * ny + y * nx + x) * Ex (z * nx * ny + y * nx + x) +
        Ey (z * nx * ny + y * nx + x) * Ey (z * nx * ny + y * nx + x) +
        Ez (z * nx * ny + y * nx + x) * Ez (z * nx * ny + y * nx + x)) ∧
    sampleField Ex Ey Ez Hx Hy Hz nx ny x y z 0 = Ex (z * nx * ny + y * nx + x) ∧
    sampleField Ex Ey Ez Hx Hy Hz nx ny x y z 1 = Ey (z * nx * ny + y * nx + x) ∧
    sampleField Ex Ey Ez Hx Hy Hz nx ny x y z 2 = Ez (z * nx * ny + y * nx + x) ∧
    sampleField Ex Ey Ez Hx Hy Hz nx ny x y z 4 = Hx (z * nx * ny + y * nx + x) ∧
    sampleField Ex Ey Ez Hx Hy Hz nx ny x y z 5 = Hy (z * nx * ny + y * nx + x) ∧
    sampleField Ex Ey Ez Hx Hy Hz nx ny x y z 6 = Hz (z * nx * ny + y * nx + x) := by
  refine ⟨rfl, ?_, ?_, ?_, ?_, ?_, ?_, ?_⟩ <;> norm_num [sampleField, idxFrag]

/-- C3 counterexample: with every environment-dependent startup step
succeeding and an invalid configuration (grid extent `nx = 0`), the
solver still reaches the first update-stage invocation — it does not
detect the invalid configuration and does not refuse to start. -/
theorem C3_counterexample_starts_despite_invalid :
    solverStarts2D allOkEnv badConfig2D = true ∧ ¬ validConfig2D badConfig2D := by
  refine ⟨rfl, fun h => ?_⟩
  have := h.2.1
  norm_num [badConfig2D] at this

/-- C3 amended: the solver performs no configuration validation before
the first timestep — whether it starts depends only on the
window/GL/shader environment, never on the configuration — but the
hard-coded configurations of both variants are valid (Courant condition
satisfied, positive extents, in-bounds source cell), so an invalid
configuration never occurs in an actual run. -/
theorem C3_amended_no_validation_hardcoded_valid :
    (∀ env cfg, solverStarts2D env cfg = startupSucceeds env) ∧
    (∀ env cfg, solverStarts3D env cfg = startupSucceeds env) ∧
    validConfig2D config2D ∧ validConfig3D config3D := by
  refine ⟨?_, ?_, ⟨?_, by norm_num [config2D, NX2D, NY2D], by norm_num [config2D, NX2D, NY2D], by decide⟩,
    ⟨?_, by norm_num [config3D, N3D], by norm_num [config3D, N3D], by norm_num [config3D, N3D], by decide⟩⟩
  · rintro ⟨g, w, e, sh⟩ cfg
    cases g <;> cases w <;> cases e <;> cases sh <;> rfl
  · rintro ⟨g, w, e, sh⟩ cfg
    cases g <;> cases w <;> cases e <;> cases sh <;> rfl
  · show em.DT ≤ em.DX / (em.C * Real.sqrt 2)
    have hpos : (0 : ℝ) < Real.sqrt 2 := Real.sqrt_pos.mpr (by norm_num)
    have hle : Real.sqrt 2 ≤ 2 := by
      nlinarith [Real.sq_sqrt (show (0 : ℝ) ≤ 2 by norm_num), Real.sqrt_nonneg 2]
    rw [em.DT, em.DX, em.C, one_mul, le_div_iff₀ hpos]
    nlinarith
  · show em.DT_3D ≤ em.DX / (em.C * Real.sqrt 3)
    have hpos : (0 : ℝ) < Real.sqrt 3 := Real.sqrt_pos.mpr (by norm_num)
    have hle : Real.sqrt 3 ≤ 2 := by
      nlinarith [Real.sq_sqrt (show (0 : ℝ) ≤ 3 by norm_num), Real.sqrt_nonneg 3]
    rw [em.DT_3D, em.DX, em.C, one_mul, le_div_iff₀ hpos]
    nlinarith

theorem grid.inBounds_iff (x y nx ny : ℤ) :
    grid.inBounds x y nx ny = true ↔ (0 ≤ x ∧ x < nx ∧ 0 ≤ y ∧ y < ny) := by
  simp [grid.inBounds, and_assoc]

theorem grid.inBounds3D_iff (x y z nx ny nz : ℤ) :
    grid.inBounds3D x y z nx ny nz = true ↔
      (0 ≤ x ∧ x < nx ∧ 0 ≤ y ∧ y < ny ∧ 0 ≤ z ∧ z < nz) := by
  simp [grid.inBounds3D, and_assoc]

/-- Arithmetic helper: a block-decomposed index `b * B + a` with the inner
offset `a` ranging over `[0, B)` and the block number `b` over `[0, N)`
lies in `[0, B * N)`. -/
theorem blockIndex_range (B N a b : ℤ) (h0 : 0 ≤ a) (h1 : a < B)
    (h2 : 0 ≤ b) (h3 : b < N) : 0 ≤ b * B + a ∧ b * B + a < B * N := by
  constructor
  · have : 0 ≤ b * B := mul_nonneg h2 (le_trans h0 (le_of_lt h1))
    linarith
  · have hb : b + 1 ≤ N := by omega
    have hB : (0 : ℤ) ≤ B := le_trans h0 (le_of_lt h1)
    have := mul_le_mul_of_nonneg_right hb hB
    nlinarith

/-- Arithmetic helper: block decomposition is injective when the inner
offsets stay inside one block. -/
theorem blockIndex_inj (B a b a2 b2 : ℤ) (h0 : 0 ≤ a) (h1 : a < B)
    (h2 : 0 ≤ a2) (h3 : a2 < B) (h : b * B + a = b2 * B + a2) :
    b = b2 ∧ a = a2 := by
  have hB : 0 < B := lt_of_le_of_lt h0 h1
  rcases lt_trichotomy b b2 with hlt | heq | hgt
  · exfalso
    have hb : (1 : ℤ) ≤ b2 - b := by omega
    nlinarith [mul_le_mul_of_nonneg_right hb (le_of_lt hB)]
  · subst heq
    exact ⟨rfl, by linarith⟩
  · exfalso
    have hb : (1 : ℤ) ≤ b - b2 := by omega
    nlinarith [mul_le_mul_of_nonneg_right hb (le_of_lt hB)]

theorem frameLoop_eq (k t : ℕ) : frameLoop k t = (List.range' t k, t + k) := by
  induction k generalizing t with
  | zero => simp [frameLoop]
  | succ n ih =>
      show (t :: (frameLoop n (t + 1)).1, (frameLoop n (t + 1)).2) = _
      rw [ih, List.range'_succ]
      simp
      omega

theorem driverLoop_eq (spf n t : ℕ) :
    driverLoop spf n t = (List.range' t (spf * n), t + spf * n) := by
  induction n generalizing t with
  | zero => simp [driverLoop]
  | succ m ih =>
      simp only [driverLoop, frameLoop_eq, ih, Prod.mk.injEq, Nat.mul_succ]
      refine ⟨?_, by omega⟩
      rw [List.range'_append_1]

/-- Pass 1 on the all-zero state returns the all-zero state: every
difference of zero samples is 0, so `H -= coef * 0` stays 0. -/
theorem hPass2D_zero (p : SimParams) : hPass2D p zeroFields2D = zeroFields2D := by
  ext x y
  · rfl
  · simp [hPass2D, zeroFields2D, hValHx, dEz_y]
  · simp [hPass2D, zeroFields2D, hValHy, dEz_x]

/-- Pass 2 on the all-zero state returns the all-zero state whenever the
source contribution vanishes (zero amplitude, or `sin` of the step's
phase equal to 0): curls of zero are 0 and the Mur combination of zero
samples is 0. -/
theorem ePass2D_zero (p : SimParams)
    (hsrc : p.source_amp * Real.sin (2 * Real.pi * p.source_freq * p.time) = 0) :
    ePass2D p zeroFields2D = zeroFields2D := by
  ext x y
  · simp only [ePass2D, zeroFields2D, eValEz, sourceTerm, dHy_x, dHx_y]
    split_ifs <;> simp [hsrc]
  · rfl
  · rfl

/-- The value Pass 2 writes at a non-boundary in-bounds cell of the
all-zero state is exactly the source term. -/
theorem ePass2D_zero_interior (p : SimParams) (x y : ℤ)
    (hin : grid.inBounds x y p.nx p.ny = true)
    (hnb : onBoundary2D p x y = false) :
    (ePass2D p zeroFields2D).ez x y = sourceTerm p x y := by
  simp [ePass2D, hin, eValEz, hnb, zeroFields2D, dHy_x, dHx_y]

/-- Pass 2 on the all-zero state leaves every cell other than the source
cell at exactly 0. -/
theorem ePass2D_zero_off_source (p : SimParams) (x y : ℤ)
    (h : ¬(x = p.source_x ∧ y = p.source_y)) :
    (ePass2D p zeroFields2D).ez x y = 0 := by
  simp only [ePass2D, zeroFields2D, eValEz, sourceTerm, dHy_x, dHx_y]
  split_ifs <;> first | rfl | simp_all

/-- Pass 1 (3D) on the all-zero state returns the all-zero state. -/
theorem hPass3D_zero (p : SimParams3D) : hPass3D p zeroFields3D = zeroFields3D := by
  ext x y z
  · rfl
  · rfl
  · rfl
  · simp [hPass3D, zeroFields3D, hVal3Hx, fwdY, fwdZ]
  · simp [hPass3D, zeroFields3D, hVal3Hy, fwdZ, fwdX]
  · simp [hPass3D, zeroFields3D, hVal3Hz, fwdX, fwdY]

/-- Pass 2 (3D) on the all-zero state returns the all-zero state when
the source amplitude is 0. -/
theorem ePass3D_zero (p : SimParams3D) (hamp : p.source_amp = 0) :
    ePass3D p zeroFields3D = zeroFields3D := by
  ext x y z
  · simp only [ePass3D, zeroFields3D, eVal3Ex, bwdY, bwdZ]
    split_ifs <;> simp
  · simp only [ePass3D, zeroFields3D, eVal3Ey, bwdZ, bwdX]
    split_ifs <;> simp
  · simp only [ePass3D, zeroFields3D, eVal3Ez, sourceTerm3, bwdX, bwdY]
    split_ifs <;> simp [hamp]
  · rfl
  · rfl
  · rfl

/-- C5: with `source_amp = 0` and the zero-initialized cold-start field
arrays, the all-zero state is preserved by every update step — in both
the 2D and the 3D solver, every field value of every component is
exactly 0 after any number of timesteps. -/
theorem C5_zero_source_stability (s2 : Scenario2D) (s3 : Scenario3D) (n : ℕ)
    (h2 : s2.source_amp = 0) (h3 : s3.source_amp = 0) :
    run2D s2 n zeroFields2D = zeroFields2D ∧
    run3D s3 n zeroFields3D = zeroFields3D := by
  induction n with
  | zero => exact ⟨rfl, rfl⟩
  | succ m ih =>
      constructor
      · show step2D (mkParams s2 m) (run2D s2 m zeroFields2D) = zeroFields2D
        rw [ih.1, step2D, hPass2D_zero, ePass2D_zero]
        show s2.source_amp * _ = 0
        rw [h2, zero_mul]
      · show step3D (mkParams3 s3 m) (run3D s3 m zeroFields3D) = zeroFields3D
        rw [ih.2, step3D, hPass3D_zero, ePass3D_zero]
        exact h3

/-- Witness for C5: a concrete zero-amplitude scenario run for 3 steps
stays identically zero. -/
theorem C5_witness :
    run2D ⟨8, 8, 4, 4, 1, 0.5, 0.04, 0⟩ 3 zeroFields2D = zeroFields2D ∧
    run3D ⟨8, 8, 8, 4, 4, 4, 1, 0.5, 0.06, 0⟩ 3 zeroFields3D = zeroFields3D :=
  C5_zero_source_stability ⟨8, 8, 4, 4, 1, 0.5, 0.04, 0⟩
    ⟨8, 8, 8, 4, 4, 4, 1, 0.5, 0.06, 0⟩ 3 rfl rfl

/-- The first update step of the concrete scenario leaves the state
all-zero: the driver invokes it with `timestep = 0`, so the parameter
block carries `time = 0 * dt = 0` and the soft source injects
`source_amp * sin(0) = 0`. -/
theorem run2D_scenario64_one : run2D scenario64 1 zeroFields2D = zeroFields2D := by
  show step2D (mkParams scenario64 0) zeroFields2D = zeroFields2D
  rw [step2D, hPass2D_zero, ePass2D_zero]
  show scenario64.source_amp *
    Real.sin (2 * Real.pi * scenario64.source_freq * ((0 : ℕ) * scenario64.dt)) = 0
  simp

/-- The second update step of the concrete scenario acts on the all-zero
state with `time = 1 * dt`. -/
theorem run2D_scenario64_two :
    run2D scenario64 2 zeroFields2D = ePass2D (mkParams scenario64 1) zeroFields2D := by
  show step2D (mkParams scenario64 1) (run2D scenario64 1 zeroFields2D) = _
  rw [run2D_scenario64_one, step2D, hPass2D_zero]

/-- C4 counterexample: in the spec's concrete scenario the value of `Ez`
at the source cell after the **first** update step is exactly 0, not
`sin(2*pi*0.04*0.5) * 1` — the first step is invoked at `timestep = 0`,
so the parameter block's `time` is 0 and the source injects `sin(0) = 0`
(and `sin(2*pi*0.04*0.5) > 0`). -/
theorem C4_counterexample_first_step :
    grid.idx2d 32 32 64 = 32 * 64 + 32 ∧
    (run2D scenario64 1 zeroFields2D).ez 32 32 = 0 ∧
    (run2D scenario64 1 zeroFields2D).ez 32 32 ≠
      Real.sin (2 * Real.pi * 0.04 * 0.5) * 1 := by
  have hpos : (0 : ℝ) < Real.sin (2 * Real.pi * 0.04 * 0.5) := by
    apply Real.sin_pos_of_pos_of_lt_pi
    · positivity
    · nlinarith [Real.pi_pos]
  refine ⟨by decide, ?_, ?_⟩
  · rw [run2D_scenario64_one]
    rfl
  · rw [run2D_scenario64_one]
    show (0 : ℝ) ≠ _
    rw [mul_one]
    exact fun h => absurd h.symm (ne_of_gt hpos)

/-- C4 amended: in the concrete scenario the first update step (invoked
at `timestep = 0`, hence `time = 0`) leaves every cell of every array at
exactly 0 — the source injects `sin(0) = 0`; it is after the **second**
update step (invoked at `timestep = 1`, `time = dt = 0.5`) that `Ez` at
the source cell `(32,32)` equals `sin(2*pi*0.04*0.5) * 1` while every
other cell of every field array remains exactly 0. -/
theorem C4_amended_second_step (x y : ℤ) :
    run2D scenario64 1 zeroFields2D = zeroFields2D ∧
    (run2D scenario64 2 zeroFields2D).ez 32 32 =
      Real.sin (2 * Real.pi * 0.04 * 0.5) * 1 ∧
    (¬(x = 32 ∧ y = 32) → (run2D scenario64 2 zeroFields2D).ez x y = 0) ∧
    (run2D scenario64 2 zeroFields2D).hx x y = 0 ∧
    (run2D scenario64 2 zeroFields2D).hy x y = 0 := by
  refine ⟨run2D_scenario64_one, ?_, ?_, ?_, ?_⟩
  · rw [run2D_scenario64_two,
      ePass2D_zero_interior (mkParams scenario64 1) 32 32 rfl rfl]
    show (if (32 : ℤ) = 32 ∧ (32 : ℤ) = 32 then
      scenario64.source_amp *
        Real.sin (2 * Real.pi * scenario64.source_freq * ((1 : ℕ) * scenario64.dt))
      else 0) = _
    norm_num [scenario64]
  · intro h
    rw [run2D_scenario64_two]
    exact ePass2D_zero_off_source (mkParams scenario64 1) x y h
  · rw [run2D_scenario64_two]
    rfl
  · rw [run2D_scenario64_two]
    rfl

/-- Witness for C4's amended statement at the concrete cell `(0, 0)`. -/
theorem C4_witness :
    (run2D scenario64 2 zeroFields2D).ez 0 0 = 0 ∧
    (run2D scenario64 2 zeroFields2D).hx 0 0 = 0 :=
  ⟨(C4_amended_second_step 0 0).2.2.1 (by decide),
   (C4_amended_second_step 0 0).2.2.2.1⟩

/-- C6: for every integer coordinate the 2D grid indexer returns
`y * nx + x` and the 3D grid indexer returns `z * nx * ny + y * nx + x`,
matching the spec's row-major formulas; the fastest-varying axis is `x`
(a unit step in `x` moves the linear index by exactly 1). -/
theorem C6_indexers_row_major (x y z nx ny : ℤ) :
    grid.idx2d x y nx = y * nx + x ∧
    grid.idx2d x y nx = grid.index2d_spec x y nx ∧
    grid.idx3d x y z nx ny = z * nx * ny + y * nx + x ∧
    grid.idx3d x y z nx ny = grid.index3d_spec x y z nx ny ∧
    grid.idx2d (x + 1) y nx = grid.idx2d x y nx + 1 ∧
    grid.idx3d (x + 1) y z nx ny = grid.idx3d x y z nx ny + 1 := by
  refine ⟨rfl, rfl, rfl, rfl, ?_, ?_⟩ <;> simp [grid.idx2d, grid.idx3d] <;> ring

/-- C7: the 2D and 3D bounds checks return `true` exactly when every
coordinate lies in `[0, dim)` for its extent; both checks (and both
indexers) are total functions, returning a defined value on every
integer input, never raising an error. -/
theorem C7_bounds_check_iff (x y z nx ny nz : ℤ) :
    (grid.inBounds x y nx ny = true ↔ (0 ≤ x ∧ x < nx ∧ 0 ≤ y ∧ y < ny)) ∧
    (grid.inBounds3D x y z nx ny nz = true ↔
      (0 ≤ x ∧ x < nx ∧ 0 ≤ y ∧ y < ny ∧ 0 ≤ z ∧ z < nz)) :=
  ⟨grid.inBounds_iff x y nx ny, grid.inBounds3D_iff x y z nx ny nz⟩

/-- A Pass-1 fan-out never touches the `Ez` array. -/
theorem foldl_hWorker_ez (p : SimParams) (f0 : Fields2D) (order : List (ℤ × ℤ)) :
    ∀ s : Fields2D, (order.foldl (hWorker p f0) s).ez = s.ez := by
  induction order with
  | nil => intro s; rfl
  | cons c rest ih => intro s; rw [List.foldl_cons, ih]; rfl

/-- Pointwise description of a Pass-1 fan-out on the `Hx` array: a cell
holds its worker's value iff its worker is in the order, independent of
where in the order it sits (every worker reads only the snapshot `f0`
and writes only its own cell). -/
theorem foldl_hWorker_hx (p : SimParams) (f0 : Fields2D) (order : List (ℤ × ℤ)) :
    ∀ (s : Fields2D) (x y : ℤ),
      (order.foldl (hWorker p f0) s).hx x y =
        if (x, y) ∈ order then hValHx p f0 (x, y) else s.hx x y := by
  induction order with
  | nil => intro s x y; simp
  | cons c rest ih =>
      intro s x y
      rw [List.foldl_cons, ih]
      by_cases hm : (x, y) ∈ rest
      · simp [hm]
      · by_cases hc : (x, y) = c
        · subst hc
          simp [hm, hWorker, upd2]
        · have hc2 : ¬(x = c.1 ∧ y = c.2) := by
            simp only [ne_eq, Prod.ext_iff] at hc
            exact hc
          simp [hm, hc, hWorker, upd2, hc2]

/-- Pointwise description of a Pass-1 fan-out on the `Hy` array. -/
theorem foldl_hWorker_hy (p : SimParams) (f0 : Fields2D) (order : List (ℤ × ℤ)) :
    ∀ (s : Fields2D) (x y : ℤ),
      (order.foldl (hWorker p f0) s).hy x y =
        if (x, y) ∈ order then hValHy p f0 (x, y) else s.hy x y := by
  induction order with
  | nil => intro s x y; simp
  | cons c rest ih =>
      intro s x y
      rw [List.foldl_cons, ih]
      by_cases hm : (x, y) ∈ rest
      · simp [hm]
      · by_cases hc : (x, y) = c
        · subst hc
          simp [hm, hWorker, upd2]
        · have hc2 : ¬(x = c.1 ∧ y = c.2) := by
            simp only [ne_eq, Prod.ext_iff] at hc
            exact hc
          simp [hm, hc, hWorker, upd2, hc2]

/-- A Pass-2 fan-out never touches the H arrays. -/
theorem foldl_eWorker_h (p : SimParams) (f0 : Fields2D) (order : List (ℤ × ℤ)) :
    ∀ s : Fields2D, (order.foldl (eWorker p f0) s).hx = s.hx ∧
      (order.foldl (eWorker p f0) s).hy = s.hy := by
  induction order with
  | nil => intro s; exact ⟨rfl, rfl⟩
  | cons c rest ih => intro s; rw [List.foldl_cons]; exact ih _

/-- Pointwise description of a Pass-2 fan-out on the `Ez` array. -/
theorem foldl_eWorker_ez (p : SimParams) (f0 : Fields2D) (order : List (ℤ × ℤ)) :
    ∀ (s : Fields2D) (x y : ℤ),
      (order.foldl (eWorker p f0) s).ez x y =
        if (x, y) ∈ order then eValEz p f0 (x, y) else s.ez x y := by
  induction order with
  | nil => intro s x y; simp
  | cons c rest ih =>
      intro s x y
      rw [List.foldl_cons, ih]
      by_cases hm : (x, y) ∈ rest
      · simp [hm]
      · by_cases hc : (x, y) = c
        · subst hc
          simp [hm, eWorker, upd2]
        · have hc2 : ¬(x = c.1 ∧ y = c.2) := by
            simp only [ne_eq, Prod.ext_iff] at hc
            exact hc
          simp [hm, hc, eWorker, upd2, hc2]

/-- A coordinate pair is in the canonical cell enumeration iff the
bounds check accepts it. -/
theorem mem_cellList (nx ny x y : ℤ) :
    ((x, y) ∈ cellList nx ny) ↔ grid.inBounds x y nx ny = true := by
  rw [cellList, List.mem_flatMap, grid.inBounds_iff]
  constructor
  · rintro ⟨a, ha, hm⟩
    rw [List.mem_map] at hm
    obtain ⟨b, hb, hpair⟩ := hm
    simp at hb
    obtain ⟨c, hc, rfl⟩ := hb
    rw [Prod.mk.injEq] at hpair
    rw [List.mem_range] at ha
    omega
  · intro h
    refine ⟨y.toNat, by rw [List.mem_range]; omega, ?_⟩
    rw [List.mem_map]
    refine ⟨x, ?_, ?_⟩
    · simp
      exact ⟨x.toNat, by omega, by omega⟩
    · rw [Prod.mk.injEq]
      exact ⟨rfl, by omega⟩

/-- A Pass-1 fan-out over any order that enumerates exactly the grid's
cells equals the whole-grid magnetic pass. -/
theorem hPassSched_eq (p : SimParams) (order : List (ℤ × ℤ)) (f : Fields2D)
    (hperm : order.Perm (cellList p.nx p.ny)) :
    hPassSched p order f = hPass2D p f := by
  ext x y
  · rw [hPassSched, foldl_hWorker_ez]
    rfl
  · rw [hPassSched, foldl_hWorker_hx]
    simp only [hperm.mem_iff, mem_cellList, hPass2D]
  · rw [hPassSched, foldl_hWorker_hy]
    simp only [hperm.mem_iff, mem_cellList, hPass2D]

/-- A Pass-2 fan-out over any order that enumerates exactly the grid's
cells equals the whole-grid electric pass. -/
theorem ePassSched_eq (p : SimParams) (order : List (ℤ × ℤ)) (f : Fields2D)
    (hperm : order.Perm (cellList p.nx p.ny)) :
    ePassSched p order f = ePass2D p f := by
  ext x y
  · rw [ePassSched, foldl_eWorker_ez]
    simp only [hperm.mem_iff, mem_cellList, ePass2D]
  · rw [ePassSched, (foldl_eWorker_h p f order f).1]
    rfl
  · rw [ePassSched, (foldl_eWorker_h p f order f).2]
    rfl

/-- A scheduled run with per-step worker orders that are permutations of
the grid's cell enumeration coincides with the canonical run. -/
theorem runSched_eq (s : Scenario2D) (sched : ℕ → List (ℤ × ℤ) × List (ℤ × ℤ))
    (n : ℕ) (f : Fields2D)
    (hs : ∀ k, ((sched k).1).Perm (cellList s.nx s.ny) ∧
      ((sched k).2).Perm (cellList s.nx s.ny)) :
    runSched s sched n f = run2D s n f := by
  induction n with
  | zero => rfl
  | succ m ih =>
      show stepSched (mkParams s m) (sched m).1 (sched m).2 (runSched s sched m f)
        = step2D (mkParams s m) (run2D s m f)
      rw [ih, stepSched, step2D, hPassSched_eq _ _ _ (hs m).1,
        ePassSched_eq _ _ _ (hs m).2]

/-- C9: the per-step update is a deterministic function of the prior
field state and the parameter block — two runs with identical parameters
and identical initial field state for the same number of update steps
produce identical field arrays, whatever order each pass's parallel
workers complete in (any enumeration of the grid's cells), and both
coincide with the canonical sequential run. -/
theorem C9_determinism (s : Scenario2D)
    (schedA schedB : ℕ → List (ℤ × ℤ) × List (ℤ × ℤ)) (n : ℕ) (f : Fields2D)
    (hA : ∀ k, ((schedA k).1).Perm (cellList s.nx s.ny) ∧
      ((schedA k).2).Perm (cellList s.nx s.ny))
    (hB : ∀ k, ((schedB k).1).Perm (cellList s.nx s.ny) ∧
      ((schedB k).2).Perm (cellList s.nx s.ny)) :
    runSched s schedA n f = runSched s schedB n f ∧
    runSched s schedA n f = run2D s n f := by
  have e1 := runSched_eq s schedA n f hA
  have e2 := runSched_eq s schedB n f hB
  exact ⟨e1.trans e2.symm, e1⟩

/-- Witness for C9: on a concrete 2×2 grid, running one step with the
workers in reversed order produces the same state as the canonical
order. -/
theorem C9_witness :
    runSched ⟨2, 2, 0, 0, 1, 0.5, 0, 1⟩
        (fun _ => ((cellList 2 2).reverse, (cellList 2 2).reverse)) 1 zeroFields2D =
      runSched ⟨2, 2, 0, 0, 1, 0.5, 0, 1⟩
        (fun _ => (cellList 2 2, cellList 2 2)) 1 zeroFields2D :=
  (C9_determinism ⟨2, 2, 0, 0, 1, 0.5, 0, 1⟩
    (fun _ => ((cellList 2 2).reverse, (cellList 2 2).reverse))
    (fun _ => (cellList 2 2, cellList 2 2)) 1 zeroFields2D
    (fun _ => ⟨(cellList 2 2).reverse_perm, (cellList 2 2).reverse_perm⟩)
    (fun _ => ⟨List.Perm.refl _, List.Perm.refl _⟩)).1

/-- C10: whenever the bounds check accepts a coordinate, the indexer's
result lies inside `[0, nx*ny)` (2D) resp. `[0, nx*ny*nz)` (3D), and
distinct in-bounds coordinates receive distinct linear indices, so
in-bounds accesses stay inside the invariant array length and never
alias. -/
theorem C10_index_range_and_injective (nx ny nz x y z x2 y2 z2 : ℤ) :
    (grid.inBounds x y nx ny = true →
      0 ≤ grid.idx2d x y nx ∧ grid.idx2d x y nx < nx * ny) ∧
    (grid.inBounds x y nx ny = true → grid.inBounds x2 y2 nx ny = true →
      grid.idx2d x y nx = grid.idx2d x2 y2 nx → x = x2 ∧ y = y2) ∧
    (grid.inBounds3D x y z nx ny nz = true →
      0 ≤ grid.idx3d x y z nx ny ∧ grid.idx3d x y z nx ny < nx * ny * nz) ∧
    (grid.inBounds3D x y z nx ny nz = true →
      grid.inBounds3D x2 y2 z2 nx ny nz = true →
      grid.idx3d x y z nx ny = grid.idx3d x2 y2 z2 nx ny →
      x = x2 ∧ y = y2 ∧ z = z2) := by
  refine ⟨?_, ?_, ?_, ?_⟩
  · intro h
    rw [grid.inBounds_iff] at h
    exact blockIndex_range nx ny x y h.1 h.2.1 h.2.2.1 h.2.2.2
  · intro h h2 heq
    rw [grid.inBounds_iff] at h h2
    have := blockIndex_inj nx x y x2 y2 h.1 h.2.1 h2.1 h2.2.1 heq
    exact ⟨this.2, this.1⟩
  · intro h
    rw [grid.inBounds3D_iff] at h
    have hinner := blockIndex_range nx ny x y h.1 h.2.1 h.2.2.1 h.2.2.2.1
    have houter := blockIndex_range (nx * ny) nz (y * nx + x) z
      hinner.1 hinner.2 h.2.2.2.2.1 h.2.2.2.2.2
    constructor
    · have := houter.1
      simp only [grid.idx3d]
      linarith [houter.1]
    · have := houter.2
      simp only [grid.idx3d]
      nlinarith [houter.2]
  · intro h h2 heq
    rw [grid.inBounds3D_iff] at h h2
    have hinner := blockIndex_range nx ny x y h.1 h.2.1 h.2.2.1 h.2.2.2.1
    have hinner2 := blockIndex_range nx ny x2 y2 h2.1 h2.2.1 h2.2.2.1 h2.2.2.2.1
    have heq' : z * (nx * ny) + (y * nx + x) = z2 * (nx * ny) + (y2 * nx + x2) := by
      simp only [grid.idx3d] at heq
      ring_nf
      ring_nf at heq
      linarith
    have houter := blockIndex_inj (nx * ny) (y * nx + x) z (y2 * nx + x2) z2
      hinner.1 hinner.2 hinner2.1 hinner2.2 heq'
    have hxy := blockIndex_inj nx x y x2 y2 h.1 h.2.1 h2.1 h2.2.1 houter.2
    exact ⟨hxy.2, hxy.1, houter.1⟩

/-- Witness for C10 at a concrete grid and coordinates. -/
theorem C10_witness :
    grid.inBounds 3 2 4 5 = true ∧ grid.inBounds3D 1 2 3 4 5 6 = true ∧
    (0 ≤ grid.idx2d 3 2 4 ∧ grid.idx2d 3 2 4 < 4 * 5) ∧
    ((1 : ℤ) = 1 ∧ (2 : ℤ) = 2 ∧ (3 : ℤ) = 3) := by
  refine ⟨by decide, by decide, ?_, ?_⟩
  · exact (C10_index_range_and_injective 4 5 6 3 2 0 3 2 0).1 (by decide)
  · exact (C10_index_range_and_injective 4 5 6 1 2 3 1 2 3).2.2.2
      (by decide) (by decide) rfl

/-- C2: the driver's timestep counter starts at 0; every rendered frame
invokes the update stage exactly `STEPS_PER_FRAME` times (4 in 2D, 1 in
3D), the counter incrementing by exactly 1 per invocation, so after `n`
frames the invocation trace is `0, 1, ..., n*STEPS_PER_FRAME - 1` and the
counter equals `n * STEPS_PER_FRAME`; and the parameter block built for
timestep `t` carries `time = t * dt` and `timestep = t`. -/
theorem C2_driver_counter_and_time (n t : ℕ) (rc sa si : ℤ) :
    driver2D n = (List.range (STEPS_PER_FRAME_2D * n), STEPS_PER_FRAME_2D * n) ∧
    driver3D n = (List.range (STEPS_PER_FRAME_3D * n), STEPS_PER_FRAME_3D * n) ∧
    frameLoop STEPS_PER_FRAME_2D t = ([t, t + 1, t + 2, t + 3], t + 4) ∧
    frameLoop STEPS_PER_FRAME_3D t = ([t], t + 1) ∧
    (uploadSimParams2D t).time = (t : ℝ) * em.DT ∧
    (uploadSimParams2D t).timestep = (t : ℤ) ∧
    (uploadSimParams3D t rc sa si).time = (t : ℝ) * em.DT_3D ∧
    (uploadSimParams3D t rc sa si).timestep = (t : ℤ) := by
  refine ⟨?_, ?_, ?_, ?_, rfl, rfl, rfl, rfl⟩
  · rw [driver2D, driverLoop_eq, List.range_eq_range']
    simp
  · rw [driver3D, driverLoop_eq, List.range_eq_range']
    simp
  · rw [frameLoop_eq]
    norm_num [STEPS_PER_FRAME_2D, List.range'_succ, Prod.ext_iff]
  · rw [frameLoop_eq]
    norm_num [STEPS_PER_FRAME_3D, List.range'_succ, Prod.ext_iff]
